import Mathlib

/-!
Shallow embedding of `cenozavr/scrapper.py`, a Selenium-based product
scraper.  External effects (element lookups, clicks, waits) are modelled
by explicit outcome values of type `Except ExKind _`; the Python
exception machinery is modelled by the `ExKind` inductive together with
explicit wrapper functions mirroring the `try`/`except` structure of the
source.  Counters (`errLogs`, `warns`, `attempts`, `closes`) record the
observable events the specification talks about.
-/

set_option autoImplicit false

universe u

/-- Exception kinds that can be raised by the scraper's body.
`elementNotInteractable` is a Python subclass of
`InvalidElementStateException`; `other n` stands for any exception kind
not named in the source (e.g. `KeyboardInterrupt`, `ValueError`). -/
inductive ExKind where
  | noSuchElement
  | timeout
  | staleRef
  | sessionNotCreated
  | invalidElementState
  | elementNotInteractable
  | webDriver
  | typeError
  | attributeError
  | indexError
  | other (n : Nat)
  deriving DecidableEq, Repr

/-- Which exception kinds are caught (and merely logged) by the specific
`except` clauses of `handle_exceptions` in the source: the Selenium
driver exceptions (`WebDriverException` and its subclasses, which include
`NoSuchElement`, `Timeout`, `StaleElementReference`, `SessionNotCreated`,
`InvalidElementState` and its subclass `ElementNotInteractable`),
plus `TypeError` and `AttributeError`.  Everything else falls to the
final `except Exception` clause, which logs and re-raises. -/
def caught_transient : ExKind → Bool
  | .noSuchElement => true
  | .timeout => true
  | .staleRef => true
  | .sessionNotCreated => true
  | .invalidElementState => true
  | .elementNotInteractable => true
  | .webDriver => true
  | .typeError => true
  | .attributeError => true
  | .indexError => false
  | .other _ => false

/-- Result of a call to a function wrapped by `handle_exceptions`:
the returned value (`some a` on success, `none` when a transient fault
was swallowed — the Python wrapper falls off the end and returns `None`),
or a re-raised exception; plus the number of error-level log entries the
wrapper emitted. -/
structure WrapResult (α : Type u) where
  result : Except ExKind (Option α)
  errLogs : Nat
  deriving Repr

/-- The decorator `handle_exceptions` applied to a body whose outcome is
`body`: on success the value is passed through; a transient driver fault
(or `TypeError`/`AttributeError`) is logged once and swallowed, the
wrapper returning `None`; any other exception is logged once and
re-raised. -/
def handle_exceptions {α : Type u} (body : Except ExKind α) : WrapResult α :=
  match body with
  | .ok a => ⟨.ok (some a), 0⟩
  | .error k => if caught_transient k then ⟨.ok none, 1⟩ else ⟨.error k, 1⟩

/-- A located DOM element (identity only; contents are carried
separately where the claims need them). -/
structure Element where
  eid : Nat
  deriving DecidableEq, Repr

/-- A browser session handle. -/
structure Driver where
  did : Nat
  deriving DecidableEq, Repr

/-- The locator strategies recognised by the `match` in `find_element`. -/
def recognized_strategies : List String :=
  ["xpath", "class_name", "css_selector", "id", "tag_name", "delivery"]

/-- Body of `find_element` (inside the decorator): dispatch on the
`method` string; a recognised strategy performs the corresponding
`wait.until` lookup (modelled by the `resolve` oracle, keyed by the
strategy); anything else raises
`AttributeError('invalid name for parametr')`. -/
def find_element_body (resolve : String → String → Except ExKind Element)
    (method loc : String) : Except ExKind Element :=
  match method with
  | "xpath" => resolve "xpath" loc
  | "class_name" => resolve "class_name" loc
  | "css_selector" => resolve "css_selector" loc
  | "id" => resolve "id" loc
  | "tag_name" => resolve "tag_name" loc
  | "delivery" => resolve "delivery" loc
  | _ => Except.error ExKind.attributeError

/-- `find_element` as callers see it: the body wrapped by
`handle_exceptions` (the source decorates it with `@handle_exceptions`). -/
def find_element (resolve : String → String → Except ExKind Element)
    (method loc : String) : WrapResult Element :=
  handle_exceptions (find_element_body resolve method loc)

/-- Body of the `try` block of `go_next_page`: `next[0].click()`.
Indexing an empty list raises `IndexError`; otherwise the click's own
outcome stands. -/
def go_next_page_try (arrows : List Element)
    (click : Element → Except ExKind Unit) : Except ExKind Unit :=
  match arrows with
  | [] => Except.error ExKind.indexError
  | e :: _ => click e

/-- The `except ElementNotInteractableException` clause of
`go_next_page`: that kind is logged at debug level and swallowed. -/
def catch_not_interactable (r : Except ExKind Unit) : Except ExKind Unit :=
  match r with
  | .error .elementNotInteractable => .ok ()
  | r => r

/-- Python semantics of a `finally` block that executes `return ret`:
the `return` replaces any in-flight exception of the handled body, so
the call always succeeds with `ret`. -/
def finally_return {α : Type} {β : Type} (body : Except ExKind α) (ret : β) :
    Except ExKind β :=
  match body with
  | _ => Except.ok ret

/-- `go_next_page driver arrows click`: look up the `right_arrow`
elements (`arrows` is the list `driver.find_elements` returned), try to
click the first, swallow `ElementNotInteractableException`, and return
the driver from the `finally` block. -/
def go_next_page (driver : Driver) (arrows : List Element)
    (click : Element → Except ExKind Unit) : Except ExKind Driver :=
  finally_return (catch_not_interactable (go_next_page_try arrows click)) driver

/-- The site root, `URL_MAIN` in the source. -/
def URL_MAIN : String := "https://www.okeydostavka.ru"

/-- Python `str.strip()` on the character list of a string: drop
whitespace from both ends. -/
def pystrip (l : List Char) : List Char :=
  ((l.dropWhile Char.isWhitespace).reverse.dropWhile Char.isWhitespace).reverse

/-- The price normalisation `text.strip()[:-2]` from `parse_products`:
trim surrounding whitespace, then unconditionally drop the last two
characters (the space and the currency sign). -/
def clean_price (l : List Char) : List Char :=
  (pystrip l).dropLast.dropLast

/-- The literal part of the regular expression
`category: "([^"]+)"` used in `parse_products`. -/
def category_lit : List Char := ("category: " ++ "\"").data

/-- Attempt to match `category: "([^"]+)"` at the head of `l`:
the literal prefix, then a maximal nonempty run of non-quote characters
(the capture), then a closing quote. -/
def match_category_at (l : List Char) : Option (List Char) :=
  if category_lit.isPrefixOf l then
    let rest := l.drop category_lit.length
    let cap := rest.takeWhile (fun c => c ≠ '"')
    if cap.isEmpty then none
    else
      match rest.drop cap.length with
      | '"' :: _ => some cap
      | _ => none
  else none

/-- `re.search(r'category: "([^dq]+)"', js)` (with `dq` the double
quote): try to match at each position, left to right; return the first
capture. -/
def searchCategory : List Char → Option (List Char)
  | [] => none
  | l@(_ :: t) =>
    match match_category_at l with
    | some v => some v
    | none => searchCategory t

/-- The category step of `parse_products`: `re.search` followed by
`.group(1)` inside `try/except AttributeError`.  A match yields the
capture and no warning; no match makes `.group` raise `AttributeError`,
caught locally: the sentinel is appended and one warning is logged. -/
def category_of (js : List Char) : String × Nat :=
  match searchCategory js with
  | some v => (String.mk v, 0)
  | none => ("no category", 1)

/-- The data behind one product card, plus an optional injected fault:
`fault = some k` means one of the card's own element lookups or
attribute reads (link, image, script, prices) raises `k` while this card
is being extracted. -/
structure Card where
  fault : Option ExKind := none
  cname : String := ""
  href : String := ""
  imgData : String := ""
  js : String := ""
  fullPriceText : String := ""
  priceText : String := ""
  deriving Repr

/-- One extracted product row (`lst` in the source, in append order). -/
structure ProductRecord where
  pname : String
  url : String
  img : String
  category : String
  fullPrice : String
  price : String
  deriving DecidableEq, Repr

/-- Observable state threaded through `parse_products`: the accumulated
`products_main` list, how many cards have had extraction attempted, how
many times `close_driver` ran, and how many category warnings were
logged. -/
structure ParseSt where
  records : List ProductRecord
  attempts : Nat
  closes : Nat
  warns : Nat
  deriving DecidableEq, Repr

/-- Initial state at entry to `parse_products`. -/
def initSt : ParseSt := ⟨[], 0, 0, 0⟩

/-- Extraction of one card (the body of `for prod in cards`):
if some step of this card faults, the exception propagates (there is no
per-card handler in the source); otherwise the record is built — image
URL prefixed with `URL_MAIN`, category via the regex step, prices via
`strip()[:-2]` — together with the number of category warnings. -/
def extract_card (c : Card) : Except ExKind ProductRecord × Nat :=
  match c.fault with
  | some k => (.error k, 0)
  | none =>
    (.ok { pname := c.cname
           url := c.href
           img := URL_MAIN ++ c.imgData
           category := (category_of c.js.data).1
           fullPrice := String.mk (clean_price c.fullPriceText.data)
           price := String.mk (clean_price c.priceText.data) },
     (category_of c.js.data).2)

/-- The card loop of `parse_products`: each card's extraction is
attempted in order; a successful record is appended to the accumulator;
a fault aborts the loop and propagates. -/
def parse_cards : List Card → ParseSt → Except ExKind Unit × ParseSt
  | [], st => (.ok (), st)
  | c :: rest, st =>
    let st1 : ParseSt := { st with attempts := st.attempts + 1 }
    match extract_card c with
    | (.error k, _) => (.error k, st1)
    | (.ok r, w) =>
      parse_cards rest { st1 with records := st1.records ++ [r],
                                  warns := st1.warns + w }

/-- One iteration of the page loop: the `wait.until` that collects the
page's cards (which may itself time out and raise). -/
structure PageData where
  cardsResult : Except ExKind (List Card)

/-- The page loop of `parse_products` (`for _ in range(pages)`): fetch
the cards, run the card loop, then `go_next_page` (which never raises,
see `go_next_page`). -/
def parse_pages : List PageData → ParseSt → Except ExKind Unit × ParseSt
  | [], st => (.ok (), st)
  | p :: rest, st =>
    match p.cardsResult with
    | .error k => (.error k, st)
    | .ok cards =>
      match parse_cards cards st with
      | (.error k, st') => (.error k, st')
      | (.ok _, st') => parse_pages rest st'

/-- One category of the category loop: `driver.get(URL_MAIN)` may fault
(`getFault`); the category click is performed through the wrapped
`find_element`/`click_element` helpers, whose faults are contained
inside themselves and never alter control flow here; then the pages are
visited. -/
structure CategoryData where
  getFault : Option ExKind := none
  pages : List PageData

/-- The category loop of `parse_products`. -/
def parse_categories : List CategoryData → ParseSt → Except ExKind Unit × ParseSt
  | [], st => (.ok (), st)
  | cat :: rest, st =>
    match cat.getFault with
    | some k => (.error k, st)
    | none =>
      match parse_pages cat.pages st with
      | (.error k, st') => (.error k, st')
      | (.ok _, st') => parse_categories rest st'

/-- Body of `parse_products` (inside the decorator): run the category
loop from the empty accumulator; on success call `close_driver` (its
single `driver.close()/quit()` recorded in `closes`) and return
`products_main`; a fault anywhere propagates before `close_driver` is
reached. -/
def parse_products_body (cats : List CategoryData) :
    Except ExKind (List ProductRecord) × ParseSt :=
  match parse_categories cats initSt with
  | (.error k, st) => (.error k, st)
  | (.ok _, st) => (.ok st.records, { st with closes := st.closes + 1 })

/-- `parse_products` as its caller sees it: the body wrapped by
`handle_exceptions`, with the observable state it left behind. -/
def parse_products (cats : List CategoryData) :
    WrapResult (List ProductRecord) × ParseSt :=
  match parse_products_body cats with
  | (r, st) => (handle_exceptions r, st)

/-- Outcomes of the individual steps of `select_delivery_address`.
`cookieFind` and `cookieClick` happen inside the nested wrapped helpers
`find_element`/`click_element`, so their faults are contained there;
every other step runs raw in the body, so its fault reaches this
function's own decorator.  `addressFind` happens inside the wrapped
`find_element`: a contained fault there yields `None`, and the
subsequent `None.send_keys(...)` raises `AttributeError` raw. -/
structure AddrEnv where
  getFault : Option ExKind := none
  cookieFind : Except ExKind Element := .ok ⟨0⟩
  cookieClick : Except ExKind Unit := .ok ()
  deliveryWait : Except ExKind Element := .ok ⟨1⟩
  deliveryClickFault : Option ExKind := none
  addressFind : Except ExKind Element := .ok ⟨2⟩
  sendKeysFault : Option ExKind := none
  saveWait : Except ExKind Element := .ok ⟨3⟩
  saveClickFault : Option ExKind := none

/-- Body of `select_delivery_address` (inside the decorator), step by
step as in the source: `driver.get`; the cookie banner accepted through
the wrapped helpers (their contained faults do not affect control flow,
though an unexpected kind they re-raise does propagate); the raw
`wait.until` and `.click()` for the delivery slot; the wrapped address
lookup followed by raw `send_keys` (on `None` this raises
`AttributeError`); the raw save-button wait and click; finally
`return driver`. -/
def select_delivery_address_body (env : AddrEnv) (driver : Driver) :
    Except ExKind Driver :=
  match env.getFault with
  | some k => Except.error k
  | none =>
  match (handle_exceptions env.cookieFind).result with
  | Except.error k => Except.error k
  | Except.ok _ =>
  match (handle_exceptions env.cookieClick).result with
  | Except.error k => Except.error k
  | Except.ok _ =>
  match env.deliveryWait with
  | Except.error k => Except.error k
  | Except.ok _ =>
  match env.deliveryClickFault with
  | some k => Except.error k
  | none =>
  match (handle_exceptions env.addressFind).result with
  | Except.error k => Except.error k
  | Except.ok none => Except.error ExKind.attributeError
  | Except.ok (some _) =>
  match env.sendKeysFault with
  | some k => Except.error k
  | none =>
  match env.saveWait with
  | Except.error k => Except.error k
  | Except.ok _ =>
  match env.saveClickFault with
  | some k => Except.error k
  | none => Except.ok driver

/-- `select_delivery_address` as its caller sees it: the body wrapped by
`handle_exceptions`. -/
def select_delivery_address (env : AddrEnv) (driver : Driver) :
    WrapResult Driver :=
  handle_exceptions (select_delivery_address_body env driver)

/-- The header row written by `save_to_csv`, exactly as in the source
(note the sixth entry). -/
def csvHeader : List String :=
  ["Наименование", "Url_товара", "Url_изображения", "Категория",
   "Полная цена", "Цена соскидкой"]

/-- Serialisation of a record as the row `lst` appended in
`parse_products` and written by `csv.writer`. -/
def ProductRecord.toRow (r : ProductRecord) : List String :=
  [r.pname, r.url, r.img, r.category, r.fullPrice, r.price]

/-- Body of `save_to_csv` (inside the decorator), with the file content
it leaves behind.  `open(..., mode='w')` truncates, so the content never
depends on what the file held before; the header is written first; then
`for row in products` writes one row per record in order — unless
`products` is `None`, in which case iterating it raises `TypeError`
after the header is already in the file. -/
def save_to_csv_body (products : Option (List (List String))) :
    Except ExKind Unit × List (List String) :=
  match products with
  | none => (.error ExKind.typeError, [csvHeader])
  | some ps => (.ok (), csvHeader :: ps)

/-- `save_to_csv` as the module entry calls it: `prior` is the file
content before the call (discarded by the truncating open); the result
is the wrapped outcome and the file content after the call. -/
def save_to_csv (_prior : List (List String))
    (products : Option (List (List String))) :
    WrapResult Unit × List (List String) :=
  match save_to_csv_body products with
  | (r, content) => (handle_exceptions r, content)

/-!  Theorems. -/

/-- C1: for every call of a function wrapped by `handle_exceptions`, if
the body raises one of the transient fault kinds (element not found,
wait timeout, stale reference, session not created, invalid element
state — including its subclass element-not-interactable — generic driver
fault, `TypeError`, `AttributeError`), the call logs the fault and
returns the neutral `None` without propagating; if the body raises any
other kind, the call logs exactly one error entry and re-raises it. -/
theorem handle_exceptions_spec {α : Type u} (body : Except ExKind α)
    (k : ExKind) (hb : body = Except.error k) :
    (k ∈ [ExKind.noSuchElement, ExKind.timeout, ExKind.staleRef,
          ExKind.sessionNotCreated, ExKind.invalidElementState,
          ExKind.elementNotInteractable, ExKind.webDriver,
          ExKind.typeError, ExKind.attributeError] →
      handle_exceptions body = ⟨Except.ok none, 1⟩)
    ∧ (k ∉ [ExKind.noSuchElement, ExKind.timeout, ExKind.staleRef,
            ExKind.sessionNotCreated, ExKind.invalidElementState,
            ExKind.elementNotInteractable, ExKind.webDriver,
            ExKind.typeError, ExKind.attributeError] →
      handle_exceptions body = ⟨Except.error k, 1⟩) := by
  subst hb
  constructor
  · intro hk
    cases k <;> simp_all [handle_exceptions, caught_transient]
  · intro hk
    cases k <;> simp_all [handle_exceptions, caught_transient]

/-- Witness for C1: a stale-reference fault is swallowed with one log
entry; an unlisted kind is re-raised after one log entry. -/
theorem handle_exceptions_spec_witness :
    handle_exceptions (Except.error ExKind.staleRef : Except ExKind Nat)
      = ⟨Except.ok none, 1⟩
    ∧ handle_exceptions (Except.error (ExKind.other 3) : Except ExKind Nat)
      = ⟨Except.error (ExKind.other 3), 1⟩ :=
  ⟨(handle_exceptions_spec (Except.error ExKind.staleRef) ExKind.staleRef
      rfl).1 (by decide),
   (handle_exceptions_spec (Except.error (ExKind.other 3)) (ExKind.other 3)
      rfl).2 (by decide)⟩

/-- C9: `go_next_page` never propagates any exception and always
returns the driver it was given, whatever the outcome of the next-arrow
lookup and click — empty arrow list (indexing raises), a
not-interactable arrow, or any other click fault: the `return` in the
`finally` block suppresses the in-flight exception. -/
theorem go_next_page_total (d : Driver) (arrows : List Element)
    (click : Element → Except ExKind Unit) :
    go_next_page d arrows click = Except.ok d := rfl

/-- Counterexample to C2: with the strategy string `"bogus"` (outside
the recognized set), the wrapped `find_element` does not raise to its
caller — the `AttributeError` from the dispatch is swallowed by the
fault-containment decorator and the call returns the neutral `None`
(with one logged error). -/
theorem find_element_invalid_strategy_cex :
    (find_element (fun _ _ => Except.ok ⟨0⟩) "bogus" "x").result
      = Except.ok none
    ∧ ∀ k : ExKind,
        (find_element (fun _ _ => Except.ok ⟨0⟩) "bogus" "x").result
          ≠ Except.error k := by
  refine ⟨rfl, ?_⟩
  intro k h
  rw [show (find_element (fun _ _ => Except.ok ⟨0⟩) "bogus" "x").result
        = Except.ok none from rfl] at h
  exact Except.noConfusion h

/-- C2 amended: for every strategy string outside the recognized set,
the body of `find_element` raises `AttributeError` (invalid argument);
but since `find_element` is itself wrapped by `handle_exceptions`, which
catches `AttributeError`, the error is logged and swallowed and the
wrapped call returns the neutral `None` to its caller instead of
propagating. -/
theorem find_element_invalid_strategy
    (resolve : String → String → Except ExKind Element)
    (method loc : String) (h : method ∉ recognized_strategies) :
    find_element_body resolve method loc
      = Except.error ExKind.attributeError
    ∧ find_element resolve method loc = ⟨Except.ok none, 1⟩ := by
  simp only [recognized_strategies, List.mem_cons, List.not_mem_nil,
    or_false, not_or] at h
  obtain ⟨h1, h2, h3, h4, h5, h6⟩ := h
  have hbody : find_element_body resolve method loc
      = Except.error ExKind.attributeError := by
    unfold find_element_body
    split
    · exact absurd rfl h1
    · exact absurd rfl h2
    · exact absurd rfl h3
    · exact absurd rfl h4
    · exact absurd rfl h5
    · exact absurd rfl h6
    · rfl
  exact ⟨hbody, by
    rw [find_element, hbody]
    rfl⟩

/-- Witness for C2 amended: the strategy `"bogus"`. -/
theorem find_element_invalid_strategy_witness :
    find_element_body (fun _ _ => Except.ok ⟨1⟩) "bogus" "loc"
      = Except.error ExKind.attributeError
    ∧ find_element (fun _ _ => Except.ok ⟨1⟩) "bogus" "loc"
      = ⟨Except.ok none, 1⟩ :=
  ⟨(find_element_invalid_strategy (fun _ _ => Except.ok ⟨1⟩) "bogus" "loc"
      (by decide)).1,
   (find_element_invalid_strategy (fun _ _ => Except.ok ⟨1⟩) "bogus" "loc"
      (by decide)).2⟩

/-- Counterexample to C6: the fixed header row written by `save_to_csv`
is not the claimed six names — the sixth column name in the source is
`"Цена соскидкой"` (no space), not `"Цена со скидкой"`. -/
theorem csv_header_cex :
    csvHeader ≠ ["Наименование", "Url_товара", "Url_изображения",
                 "Категория", "Полная цена", "Цена со скидкой"]
    ∧ csvHeader.getD 5 "" = "Цена соскидкой" := by
  constructor
  · decide
  · rfl

/-- C6 amended: for every result set, the persisted CSV output is
exactly one fixed header row `Наименование, Url_товара, Url_изображения,
Категория, Полная цена, Цена соскидкой` (the sixth name written without
a space, as in the source), followed by one row per record in
accumulation order; the file is truncated and rewritten on each run
(the final content is independent of the prior content). -/
theorem save_to_csv_content (prior : List (List String))
    (ps : List (List String)) :
    (save_to_csv prior (some ps)).2 = csvHeader :: ps
    ∧ (save_to_csv prior (some ps)).1 = ⟨Except.ok (some ()), 0⟩ :=
  ⟨rfl, rfl⟩

/-- C10: if extraction failed entirely and `parse_products` yielded the
neutral `None`, then `save_to_csv None` does not abort the run: the
`TypeError` raised by iterating `None` is contained by the wrapper (one
logged error, outcome `None`), and the truncated file ends up holding
exactly the header row and no data rows. -/
theorem save_to_csv_none_header_only (prior : List (List String)) :
    save_to_csv prior none = (⟨Except.ok none, 1⟩, [csvHeader]) := rfl

/-- Counterexample to C3: one category, one page with three cards where
card 2's extraction raises a stale-reference fault.  Nothing is kept —
the wrapped `parse_products` returns the neutral `None`, so card 1's
record is not in any returned list — and only 2 extraction attempts
happen, so card 3 is never attempted. -/
theorem parse_products_card_fault_cex :
    (¬ ∃ l, (parse_products
        [⟨none, [⟨Except.ok [{ cname := "c1" },
                             { fault := some ExKind.staleRef },
                             { cname := "c3" }]⟩]⟩]).1.result
          = Except.ok (some l))
    ∧ (parse_products
        [⟨none, [⟨Except.ok [{ cname := "c1" },
                             { fault := some ExKind.staleRef },
                             { cname := "c3" }]⟩]⟩]).2.attempts = 2 := by
  constructor
  · rintro ⟨l, h⟩
    rw [show (parse_products
        [⟨none, [⟨Except.ok [{ cname := "c1" },
                             { fault := some ExKind.staleRef },
                             { cname := "c3" }]⟩]⟩]).1.result
          = Except.ok none from rfl] at h
    simp at h
  · rfl

/-- C3 amended: fault containment in `parse_products` is per call, not
per card.  If card 1 extracts cleanly and card 2 raises a transient
fault (e.g. stale reference), the fault propagates out of the card,
page and category loops to the function's own wrapper: no further card
is attempted (2 attempts in total, so card 3 is skipped), and the
wrapped call returns the neutral `None` — card 1's record is discarded
along with the rest of the run's output. -/
theorem parse_products_card_fault_aborts_call (c1 c2 : Card)
    (rest : List Card) (k : ExKind) (h1 : c1.fault = none)
    (h2 : c2.fault = some k) (hk : caught_transient k = true) :
    (parse_products [⟨none, [⟨Except.ok (c1 :: c2 :: rest)⟩]⟩]).1
      = ⟨Except.ok none, 1⟩
    ∧ (parse_products [⟨none, [⟨Except.ok (c1 :: c2 :: rest)⟩]⟩]).2.attempts
      = 2
    ∧ (parse_products [⟨none, [⟨Except.ok (c1 :: c2 :: rest)⟩]⟩]).2.closes
      = 0 := by
  refine ⟨?_, ?_, ?_⟩ <;>
    simp [parse_products, parse_products_body, parse_categories,
      parse_pages, parse_cards, extract_card, h1, h2, hk,
      handle_exceptions, initSt]

/-- Witness for C3 amended: the same three concrete cards. -/
theorem parse_products_card_fault_aborts_call_witness :
    (parse_products [⟨none, [⟨Except.ok [{ cname := "w1" },
        { fault := some ExKind.staleRef }, { cname := "w3" }]⟩]⟩]).1
      = ⟨Except.ok none, 1⟩
    ∧ (parse_products [⟨none, [⟨Except.ok [{ cname := "w1" },
        { fault := some ExKind.staleRef }, { cname := "w3" }]⟩]⟩]).2.attempts
      = 2
    ∧ (parse_products [⟨none, [⟨Except.ok [{ cname := "w1" },
        { fault := some ExKind.staleRef }, { cname := "w3" }]⟩]⟩]).2.closes
      = 0 :=
  parse_products_card_fault_aborts_call { cname := "w1" }
    { fault := some ExKind.staleRef } [{ cname := "w3" }]
    ExKind.staleRef rfl rfl rfl

/-- The card loop never touches `close_driver`. -/
theorem parse_cards_closes (cs : List Card) (st : ParseSt) :
    (parse_cards cs st).2.closes = st.closes := by
  induction cs generalizing st with
  | nil => rfl
  | cons c rest ih =>
    simp only [parse_cards]
    rcases hc : extract_card c with ⟨r, w⟩
    cases r with
    | error k => simp
    | ok v => simp [ih]

/-- The page loop never touches `close_driver`. -/
theorem parse_pages_closes (ps : List PageData) (st : ParseSt) :
    (parse_pages ps st).2.closes = st.closes := by
  induction ps generalizing st with
  | nil => rfl
  | cons p rest ih =>
    rcases hcr : p.cardsResult with k | cards
    · simp [parse_pages, hcr]
    · rcases hc : parse_cards cards st with ⟨r, st'⟩
      have h2 : st'.closes = st.closes := by
        have hcc := parse_cards_closes cards st
        rw [hc] at hcc
        simpa using hcc
      cases r with
      | error k => simp [parse_pages, hcr, hc, h2]
      | ok v => simp [parse_pages, hcr, hc, ih st', h2]

/-- The category loop never touches `close_driver`. -/
theorem parse_categories_closes (cats : List CategoryData) (st : ParseSt) :
    (parse_categories cats st).2.closes = st.closes := by
  induction cats generalizing st with
  | nil => rfl
  | cons cat rest ih =>
    rcases hcg : cat.getFault with _ | k
    · rcases hp : parse_pages cat.pages st with ⟨r, st'⟩
      have h2 : st'.closes = st.closes := by
        have hpc := parse_pages_closes cat.pages st
        rw [hp] at hpc
        simpa using hpc
      cases r with
      | error k => simp [parse_categories, hcg, hp, h2]
      | ok v => simp [parse_categories, hcg, hp, ih st', h2]
    · simp [parse_categories, hcg]

/-- Counterexample to C4: one category whose only page has a single card
that raises a stale-reference fault during extraction.  The fault skips
straight past `close_driver` to the wrapper, which returns the neutral
`None`: the caller proceeds, yet the session was closed zero times, not
exactly once. -/
theorem parse_products_close_cex :
    (parse_products
        [⟨none, [⟨Except.ok [{ fault := some ExKind.staleRef }]⟩]⟩]).2.closes
      = 0
    ∧ ¬ (parse_products
        [⟨none, [⟨Except.ok [{ fault := some ExKind.staleRef }]⟩]⟩]).2.closes
      = 1
    ∧ (parse_products
        [⟨none, [⟨Except.ok [{ fault := some ExKind.staleRef }]⟩]⟩]).1.result
      = Except.ok none := by
  refine ⟨rfl, ?_, rfl⟩
  intro h
  rw [show (parse_products
      [⟨none, [⟨Except.ok [{ fault := some ExKind.staleRef }]⟩]⟩]).2.closes
      = 0 from rfl] at h
  exact Nat.noConfusion h

/-- C4 amended: the session is closed exactly once only on the
full-success path of `parse_products`; on any path where a fault escapes
the category/page/card loops, `close_driver` is never reached and the
session is closed zero times (left open) even though the wrapper lets
the caller proceed. -/
theorem parse_products_close_behavior (cats : List CategoryData) :
    ((∃ st, parse_categories cats initSt = (Except.ok (), st)) →
      (parse_products cats).2.closes = 1)
    ∧ (∀ k st, parse_categories cats initSt = (Except.error k, st) →
      (parse_products cats).2.closes = 0) := by
  constructor
  · rintro ⟨st, hst⟩
    have hcl := parse_categories_closes cats initSt
    rw [hst] at hcl
    simp only [parse_products, parse_products_body, hst]
    simpa [initSt] using hcl
  · intro k st hst
    have hcl := parse_categories_closes cats initSt
    rw [hst] at hcl
    simp only [parse_products, parse_products_body, hst]
    simpa [initSt] using hcl

/-- Witness for C4 amended: a clean single-card run closes the session
exactly once; a faulting single-card run closes it zero times. -/
theorem parse_products_close_behavior_witness :
    (parse_products [⟨none, [⟨Except.ok [{ cname := "ok" }]⟩]⟩]).2.closes = 1
    ∧ (parse_products
        [⟨none, [⟨Except.ok [{ fault := some ExKind.timeout }]⟩]⟩]).2.closes
      = 0 :=
  ⟨(parse_products_close_behavior
      [⟨none, [⟨Except.ok [{ cname := "ok" }]⟩]⟩]).1 ⟨_, rfl⟩,
   (parse_products_close_behavior
      [⟨none, [⟨Except.ok [{ fault := some ExKind.timeout }]⟩]⟩]).2
      ExKind.timeout _ rfl⟩

/-- Counterexample to C5: a transient timeout while waiting for the
delivery-slot button makes the wrapped `select_delivery_address` return
the neutral `None` to its caller — not the driver object. -/
theorem select_delivery_address_cex :
    (select_delivery_address
        { deliveryWait := Except.error ExKind.timeout } ⟨7⟩).result
      = Except.ok none
    ∧ (select_delivery_address
        { deliveryWait := Except.error ExKind.timeout } ⟨7⟩).result
      ≠ Except.ok (some ⟨7⟩) := by
  refine ⟨rfl, ?_⟩
  intro h
  rw [show (select_delivery_address
      { deliveryWait := Except.error ExKind.timeout } ⟨7⟩).result
      = Except.ok none from rfl] at h
  simp at h

/-- A successful decorated call yields exactly the body's value: if the
wrapped result is `some x`, the body returned `x` (every fault path
yields `None` or a re-raise instead). -/
theorem handle_exceptions_ok_some {α : Type u} (b : Except ExKind α) (x : α)
    (h : (handle_exceptions b).result = Except.ok (some x)) :
    b = Except.ok x := by
  cases b with
  | ok a =>
    simp [handle_exceptions] at h
    rw [h]
  | error k =>
    cases hk : caught_transient k <;> simp [handle_exceptions, hk] at h

/-- C5 amended: when a transient fault escapes one of the raw steps of
`select_delivery_address` — the site navigation, the delivery-slot wait,
the delivery click, the wrapped address lookup (whose contained fault
surfaces as `None.send_keys`, i.e. `AttributeError`), the `send_keys`,
the save-button wait or the save click — the function's wrapper swallows
it and the call returns the neutral `None`, not the driver; the driver
is returned when, and only when, every raw step succeeds — transient
faults inside the nested wrapped helpers (the cookie-banner
`find_element`/`click_element`) are absorbed there and do not prevent
the driver from being returned. -/
theorem select_delivery_address_amended (env : AddrEnv) (d : Driver)
    (hcf : ∀ k, env.cookieFind = Except.error k → caught_transient k = true)
    (hcc : ∀ k, env.cookieClick = Except.error k → caught_transient k = true) :
    (∀ k, env.getFault = some k → caught_transient k = true →
      select_delivery_address env d = ⟨Except.ok none, 1⟩)
    ∧ (∀ k, env.getFault = none → env.deliveryWait = Except.error k →
        caught_transient k = true →
        select_delivery_address env d = ⟨Except.ok none, 1⟩)
    ∧ (∀ k e, env.getFault = none → env.deliveryWait = Except.ok e →
        env.deliveryClickFault = some k → caught_transient k = true →
        select_delivery_address env d = ⟨Except.ok none, 1⟩)
    ∧ (∀ k e, env.getFault = none → env.deliveryWait = Except.ok e →
        env.deliveryClickFault = none → env.addressFind = Except.error k →
        caught_transient k = true →
        select_delivery_address env d = ⟨Except.ok none, 1⟩)
    ∧ (∀ k e a, env.getFault = none → env.deliveryWait = Except.ok e →
        env.deliveryClickFault = none → env.addressFind = Except.ok a →
        env.sendKeysFault = some k → caught_transient k = true →
        select_delivery_address env d = ⟨Except.ok none, 1⟩)
    ∧ (∀ k e a, env.getFault = none → env.deliveryWait = Except.ok e →
        env.deliveryClickFault = none → env.addressFind = Except.ok a →
        env.sendKeysFault = none → env.saveWait = Except.error k →
        caught_transient k = true →
        select_delivery_address env d = ⟨Except.ok none, 1⟩)
    ∧ (∀ k e a s, env.getFault = none → env.deliveryWait = Except.ok e →
        env.deliveryClickFault = none → env.addressFind = Except.ok a →
        env.sendKeysFault = none → env.saveWait = Except.ok s →
        env.saveClickFault = some k → caught_transient k = true →
        select_delivery_address env d = ⟨Except.ok none, 1⟩)
    ∧ (∀ e a s, env.getFault = none → env.deliveryWait = Except.ok e →
        env.deliveryClickFault = none → env.addressFind = Except.ok a →
        env.sendKeysFault = none → env.saveWait = Except.ok s →
        env.saveClickFault = none →
        select_delivery_address env d = ⟨Except.ok (some d), 0⟩)
    ∧ (∀ x, (select_delivery_address env d).result = Except.ok (some x) →
        env.getFault = none ∧ (∃ e, env.deliveryWait = Except.ok e)
        ∧ env.deliveryClickFault = none
        ∧ (∃ a, env.addressFind = Except.ok a)
        ∧ env.sendKeysFault = none ∧ (∃ s, env.saveWait = Except.ok s)
        ∧ env.saveClickFault = none) := by
  obtain ⟨g, cf, cc, dw, dc, af, sk, sw, sc⟩ := env
  simp only at hcf hcc ⊢
  have hocf : ∃ o, (handle_exceptions cf).result = Except.ok o := by
    cases cf with
    | ok e => exact ⟨some e, rfl⟩
    | error k => exact ⟨none, by simp [handle_exceptions, hcf k rfl]⟩
  have hocc : ∃ o, (handle_exceptions cc).result = Except.ok o := by
    cases cc with
    | ok e => exact ⟨some e, rfl⟩
    | error k => exact ⟨none, by simp [handle_exceptions, hcc k rfl]⟩
  obtain ⟨ocf, hocf⟩ := hocf
  obtain ⟨occ, hocc⟩ := hocc
  have hb : select_delivery_address_body ⟨g, cf, cc, dw, dc, af, sk, sw, sc⟩ d
      = (match g with
         | some k => Except.error k
         | none =>
           match dw with
           | Except.error k => Except.error k
           | Except.ok _ =>
             match dc with
             | some k => Except.error k
             | none =>
               match (handle_exceptions af).result with
               | Except.error k => Except.error k
               | Except.ok none => Except.error ExKind.attributeError
               | Except.ok (some _) =>
                 match sk with
                 | some k => Except.error k
                 | none =>
                   match sw with
                   | Except.error k => Except.error k
                   | Except.ok _ =>
                     match sc with
                     | some k => Except.error k
                     | none => Except.ok d) := by
    simp only [select_delivery_address_body]
    rw [hocf, hocc]
  refine ⟨?_, ?_, ?_, ?_, ?_, ?_, ?_, ?_, ?_⟩
  · intro k hg hk
    subst hg
    simp only [select_delivery_address]
    rw [hb]
    simp [handle_exceptions, hk]
  · intro k hg hdw hk
    subst hg hdw
    simp only [select_delivery_address]
    rw [hb]
    simp [handle_exceptions, hk]
  · intro k e hg hdw hdc hk
    subst hg hdw hdc
    simp only [select_delivery_address]
    rw [hb]
    simp [handle_exceptions, hk]
  · intro k e hg hdw hdc haf hk
    subst hg hdw hdc haf
    have hatt : caught_transient ExKind.attributeError = true := rfl
    simp only [select_delivery_address]
    rw [hb]
    simp [handle_exceptions, hk, hatt]
  · intro k e a hg hdw hdc haf hsk hk
    subst hg hdw hdc haf hsk
    simp only [select_delivery_address]
    rw [hb]
    simp [handle_exceptions, hk]
  · intro k e a hg hdw hdc haf hsk hsw hk
    subst hg hdw hdc haf hsk hsw
    simp only [select_delivery_address]
    rw [hb]
    simp [handle_exceptions, hk]
  · intro k e a s hg hdw hdc haf hsk hsw hsc hk
    subst hg hdw hdc haf hsk hsw hsc
    simp only [select_delivery_address]
    rw [hb]
    simp [handle_exceptions, hk]
  · intro e a s hg hdw hdc haf hsk hsw hsc
    subst hg hdw hdc haf hsk hsw hsc
    simp only [select_delivery_address]
    rw [hb]
    simp [handle_exceptions]
  · intro x hx
    have hbody := handle_exceptions_ok_some _ x hx
    rw [hb] at hbody
    cases g with
    | some k => simp at hbody
    | none =>
      cases dw with
      | error k => simp at hbody
      | ok e =>
        cases dc with
        | some k => simp at hbody
        | none =>
          cases af with
          | error k =>
            cases hk : caught_transient k <;>
              simp [handle_exceptions, hk] at hbody
          | ok a =>
            cases sk with
            | some k => simp [handle_exceptions] at hbody
            | none =>
              cases sw with
              | error k => simp [handle_exceptions] at hbody
              | ok s =>
                cases sc with
                | some k => simp [handle_exceptions] at hbody
                | none =>
                  exact ⟨rfl, ⟨e, rfl⟩, rfl, ⟨a, rfl⟩, rfl, ⟨s, rfl⟩, rfl⟩

/-- Witness for C5 amended: one concrete environment per raw-step fault
locus (navigation, delivery wait, delivery click, address lookup,
send-keys, save wait, save click), plus the all-success environment. -/
theorem select_delivery_address_amended_witness :
    select_delivery_address { getFault := some ExKind.webDriver } ⟨7⟩
      = ⟨Except.ok none, 1⟩
    ∧ select_delivery_address { deliveryWait := Except.error ExKind.timeout }
        ⟨7⟩ = ⟨Except.ok none, 1⟩
    ∧ select_delivery_address
        { deliveryClickFault := some ExKind.noSuchElement } ⟨7⟩
      = ⟨Except.ok none, 1⟩
    ∧ select_delivery_address { addressFind := Except.error ExKind.timeout }
        ⟨7⟩ = ⟨Except.ok none, 1⟩
    ∧ select_delivery_address { sendKeysFault := some ExKind.staleRef } ⟨7⟩
      = ⟨Except.ok none, 1⟩
    ∧ select_delivery_address { saveWait := Except.error ExKind.timeout } ⟨7⟩
      = ⟨Except.ok none, 1⟩
    ∧ select_delivery_address { saveClickFault := some ExKind.webDriver } ⟨7⟩
      = ⟨Except.ok none, 1⟩
    ∧ select_delivery_address {} ⟨7⟩ = ⟨Except.ok (some ⟨7⟩), 0⟩ := by
  refine ⟨?_, ?_, ?_, ?_, ?_, ?_, ?_, ?_⟩
  · exact (select_delivery_address_amended
      { getFault := some ExKind.webDriver } ⟨7⟩
      (fun k h => by simp at h) (fun k h => by simp at h)).1
      ExKind.webDriver rfl rfl
  · exact (select_delivery_address_amended
      { deliveryWait := Except.error ExKind.timeout } ⟨7⟩
      (fun k h => by simp at h) (fun k h => by simp at h)).2.1
      ExKind.timeout rfl rfl rfl
  · exact (select_delivery_address_amended
      { deliveryClickFault := some ExKind.noSuchElement } ⟨7⟩
      (fun k h => by simp at h) (fun k h => by simp at h)).2.2.1
      ExKind.noSuchElement ⟨1⟩ rfl rfl rfl rfl
  · exact (select_delivery_address_amended
      { addressFind := Except.error ExKind.timeout } ⟨7⟩
      (fun k h => by simp at h) (fun k h => by simp at h)).2.2.2.1
      ExKind.timeout ⟨1⟩ rfl rfl rfl rfl rfl
  · exact (select_delivery_address_amended
      { sendKeysFault := some ExKind.staleRef } ⟨7⟩
      (fun k h => by simp at h) (fun k h => by simp at h)).2.2.2.2.1
      ExKind.staleRef ⟨1⟩ ⟨2⟩ rfl rfl rfl rfl rfl rfl
  · exact (select_delivery_address_amended
      { saveWait := Except.error ExKind.timeout } ⟨7⟩
      (fun k h => by simp at h) (fun k h => by simp at h)).2.2.2.2.2.1
      ExKind.timeout ⟨1⟩ ⟨2⟩ rfl rfl rfl rfl rfl rfl rfl
  · exact (select_delivery_address_amended
      { saveClickFault := some ExKind.webDriver } ⟨7⟩
      (fun k h => by simp at h) (fun k h => by simp at h)).2.2.2.2.2.2.1
      ExKind.webDriver ⟨1⟩ ⟨2⟩ ⟨3⟩ rfl rfl rfl rfl rfl rfl rfl rfl
  · exact (select_delivery_address_amended {} ⟨7⟩
      (fun k h => by simp at h) (fun k h => by simp at h)).2.2.2.2.2.2.2.1
      ⟨1⟩ ⟨2⟩ ⟨3⟩ rfl rfl rfl rfl rfl rfl rfl

/-- A list is a `isPrefixOf`-prefix of itself followed by anything. -/
theorem isPrefixOf_append_self (l t : List Char) :
    l.isPrefixOf (l ++ t) = true := by
  induction l with
  | nil => simp [List.isPrefixOf]
  | cons a l ih => simp [List.isPrefixOf, ih]

/-- `takeWhile` over a block of satisfying elements followed by a
failing one returns exactly the block. -/
theorem takeWhile_append_block (p : Char → Bool) (v : List Char) (x : Char)
    (r : List Char) (hv : ∀ c ∈ v, p c = true) (hx : p x = false) :
    (v ++ x :: r).takeWhile p = v := by
  induction v with
  | nil => simp [List.takeWhile, hx]
  | cons c cs ih =>
    have hc : p c = true := hv c (List.mem_cons_self c cs)
    have hcs : ∀ c ∈ cs, p c = true := fun d hd => hv d (List.mem_cons_of_mem c hd)
    simp [List.takeWhile, hc, ih hcs]

/-- The regex model matches at the head of
`category: "` ++ `v` ++ `"` ++ anything, capturing `v`, whenever `v` is
nonempty and quote-free. -/
theorem match_category_at_lit (v post : List Char) (hv : v ≠ [])
    (hq : ∀ c ∈ v, ¬ c = '"') :
    match_category_at (category_lit ++ (v ++ '"' :: post)) = some v := by
  have hpre : category_lit.isPrefixOf (category_lit ++ (v ++ '"' :: post))
      = true := isPrefixOf_append_self _ _
  have hdrop : (category_lit ++ (v ++ '"' :: post)).drop category_lit.length
      = v ++ '"' :: post := List.drop_left _ _
  have htake : (v ++ '"' :: post).takeWhile (fun c => c ≠ '"') = v := by
    refine takeWhile_append_block _ v '"' post (fun c hc => ?_) (by decide)
    simp [hq c hc]
  have hne : v.isEmpty = false := by
    cases v with
    | nil => exact absurd rfl hv
    | cons a t => rfl
  have hdrop2 : (v ++ '"' :: post).drop v.length = '"' :: post :=
    List.drop_left _ _
  unfold match_category_at
  rw [hpre]
  simp only [if_true]
  rw [hdrop, htake, hne]
  simp only [Bool.false_eq_true, if_false]
  rw [hdrop2]
  rfl

/-- A head match is what `re.search` returns. -/
theorem searchCategory_of_head_match (l : List Char) (v : List Char)
    (h : match_category_at l = some v) : searchCategory l = some v := by
  cases l with
  | nil =>
    rw [show match_category_at [] = none from rfl] at h
    exact Option.noConfusion h
  | cons a t => simp [searchCategory, h]

/-- C7: category-label extraction.  If the card's script content holds
the pattern `category: "<value>"` (nonempty, quote-free value), the
extracted field is that captured value with no warning; if the pattern
matches nowhere, the field is the sentinel `no category` and exactly one
warning is logged; concretely, content containing `category: "Snacks"`
yields `Snacks`.  The extracted pair is exactly what `extract_card`
stores in the record of a fault-free card. -/
theorem parse_products_category_field (v post : List Char) (hv : v ≠ [])
    (hq : ∀ c ∈ v, ¬ c = '"') :
    category_of (category_lit ++ (v ++ '"' :: post)) = (String.mk v, 0)
    ∧ (∀ js, searchCategory js = none → category_of js = ("no category", 1))
    ∧ searchCategory ("var x = 1; category: " ++ "\"" ++ "Snacks"
        ++ "\"" ++ "; y").data = some ("Snacks").data
    ∧ (∀ c : Card, c.fault = none →
        (extract_card c).1 = Except.ok
          { pname := c.cname, url := c.href, img := URL_MAIN ++ c.imgData,
            category := (category_of c.js.data).1,
            fullPrice := String.mk (clean_price c.fullPriceText.data),
            price := String.mk (clean_price c.priceText.data) }
        ∧ (extract_card c).2 = (category_of c.js.data).2) := by
  refine ⟨?_, ?_, ?_, ?_⟩
  · have hm := match_category_at_lit v post hv hq
    have hs := searchCategory_of_head_match _ v hm
    simp [category_of, hs]
  · intro js hjs
    simp [category_of, hjs]
  · decide
  · intro c hc
    constructor <;> simp [extract_card, hc]

/-- Witness for C7: the value `Snacks` followed by `; y`, and a content
with no match. -/
theorem parse_products_category_field_witness :
    category_of (category_lit ++ (("Snacks").data ++ '"' :: ("; y").data))
      = ("Snacks", 0)
    ∧ category_of ("no match here").data = ("no category", 1) := by
  have h := parse_products_category_field ("Snacks").data ("; y").data
    (by decide) (by decide)
  exact ⟨h.1, h.2.1 ("no match here").data (by decide)⟩

/-- Counterexample to C8: the trim-and-strip operation is not idempotent
on already-clean input.  `"1234,56"` is already free of surrounding
whitespace and of the 2-character suffix, yet applying the operation
drops two further characters, yielding `"1234,"`. -/
theorem clean_price_not_idempotent_cex :
    clean_price ("1234,56").data = ("1234,").data
    ∧ ¬ clean_price ("1234,56").data = ("1234,56").data := by
  constructor
  · decide
  · decide

/-- The whitespace trim is idempotent. -/
theorem pystrip_idem (l : List Char) : pystrip (pystrip l) = pystrip l := by
  have hdef : ∀ m : List Char,
      pystrip m = List.rdropWhile Char.isWhitespace
        (m.dropWhile Char.isWhitespace) := fun m => rfl
  have hA : (pystrip l).dropWhile Char.isWhitespace = pystrip l := by
    rw [List.dropWhile_eq_self_iff]
    intro hl
    have hpre := List.rdropWhile_prefix Char.isWhitespace
      (l.dropWhile Char.isWhitespace)
    rw [← hdef l] at hpre
    have hml : 0 < (l.dropWhile Char.isWhitespace).length :=
      Nat.lt_of_lt_of_le hl hpre.length_le
    have hget := List.dropWhile_get_zero_not Char.isWhitespace l hml
    have hEq := hpre.getElem (n := 0) (by simpa using hl)
    simpa [List.get_eq_getElem, hEq] using hget
  rw [hdef (pystrip l), hA, hdef l, List.rdropWhile_idempotent]

/-- C8 amended: price normalisation maps the full-price text
`"1234,56 ₴"` to `"1234,56"` (trim surrounding whitespace, then drop the
fixed 2-character suffix); the whitespace trim on its own is idempotent,
but the whole operation is not idempotent on already-clean input — it
always drops two further characters. -/
theorem clean_price_spec :
    clean_price ("1234,56 ₴").data = ("1234,56").data
    ∧ (∀ l : List Char, pystrip (pystrip l) = pystrip l)
    ∧ clean_price (clean_price ("1234,56 ₴").data) = ("1234,").data := by
  refine ⟨by decide, pystrip_idem, by decide⟩
